import Mathlib

/-!
Verification of the update lifecycle subsystem of codex-desktop-linux.

Shallow embedding of two source files:
- `src/linux-updater.js` — the injected Linux updater: build-number caching,
  appcast fetching and parsing, the update check, dialogs, the renderer
  notification, the install trigger, and the intercepted
  `install-app-update` IPC message.
- `src/install.sh` — the conversion pipeline: the idempotency stamp
  (compute_stamp / check_stamp / write_stamp) and the fail-fast staged `main`.

Effectful JS code is embedded as pure functions from an environment
(network outcome, filesystem reads, dialog responses) to a result carrying
the new module state and the list of user-visible side effects (events).
-/

namespace Updater

/-! ## Appcast parsing (`parseRemoteBuild`, src/linux-updater.js lines 69-73)

The JS code runs `xml.match(/<sparkle:version>(\d+)<\/sparkle:version>/)` and
returns `parseInt(match[1], 10)` on a match, `null` otherwise.  `String.match`
without the global flag returns the leftmost match; since `\d+` is a maximal
digit run followed by a literal that starts with a non-digit, a match at
position i is exactly: the open tag literal, a nonempty maximal digit run,
then the close tag literal. -/

def openTag : List Char := ("<sparkle:version>").toList

def closeTag : List Char := ("</sparkle:version>").toList

/-- Split a character list into its maximal leading digit run and the rest. -/
def takeDigits : List Char → List Char × List Char
  | [] => ([], [])
  | c :: cs =>
    if c.isDigit then
      let p := takeDigits cs
      (c :: p.1, p.2)
    else ([], c :: cs)

/-- Decimal value of a digit run, as `parseInt(·, 10)` computes it. -/
def digitsToNat (ds : List Char) : Nat :=
  ds.foldl (fun acc c => 10 * acc + (c.toNat - 48)) 0

/-- Does the version-tag pattern match starting exactly here?  Returns the
parsed number on a match. -/
def matchTagAt (s : List Char) : Option Nat :=
  if openTag.isPrefixOf s then
    let afterOpen := s.drop openTag.length
    let p := takeDigits afterOpen
    if p.1 ≠ [] ∧ closeTag.isPrefixOf p.2 then some (digitsToNat p.1) else none
  else none

/-- Leftmost match of the version-tag pattern, as `String.match` finds it. -/
def findFirstMatch : List Char → Option Nat
  | [] => none
  | c :: rest =>
    match matchTagAt (c :: rest) with
    | some n => some n
    | none => findFirstMatch rest

/-- `parseRemoteBuild` from src/linux-updater.js lines 69-73. -/
def parseRemoteBuild (xml : String) : Option Nat :=
  findFirstMatch xml.toList

/-- All pattern matches of the document, in document order (used to state
properties about the FIRST tag in document order). -/
def allMatches : List Char → List Nat
  | [] => []
  | c :: rest =>
    match matchTagAt (c :: rest) with
    | some n => n :: allMatches rest
    | none => allMatches rest

/-! ## Module state (src/linux-updater.js lines 22-24) -/

structure UpdaterState where
  currentBuildNumber : Option Int
  updateAvailable : Bool
  latestRemoteBuild : Option Nat
deriving DecidableEq, BEq

/-- The module-level initial state: `null`, `false`, `null`. -/
def initialState : UpdaterState :=
  { currentBuildNumber := none, updateAvailable := false, latestRemoteBuild := none }

/-! ## Local build number (`getCurrentBuildNumber`, lines 40-50)

The JS reads `package.json`, parses it, and computes
`parseInt(pkg.codexBuildNumber, 10) || 0`, caching the result; any thrown
error caches 0.  The read outcome is embedded as: `fail` (readFileSync or
JSON.parse throws) or `parsed n` where `n` is the `parseInt` result
(`none` for NaN). -/

inductive PkgReadResult
  | fail
  | parsed (n : Option Int)
deriving DecidableEq, BEq

/-- `getCurrentBuildNumber`: returns the build number and the updated state.
`parseInt(x, 10) || 0` maps NaN to 0 and is the identity on every other
integer (0 is falsy but `0 || 0` is still 0). -/
def getCurrentBuildNumber (st : UpdaterState) (read : PkgReadResult) :
    Int × UpdaterState :=
  match st.currentBuildNumber with
  | some n => (n, st)
  | none =>
    let v : Int :=
      match read with
      | .fail => 0
      | .parsed none => 0
      | .parsed (some n) => n
    (v, { st with currentBuildNumber := some v })

/-! ## Network fetch (`fetchAppcast`, lines 52-67)

The promise rejects on a transport error and on any non-200 status; it
resolves with the body only on status 200. -/

inductive HttpOutcome
  | netError
  | response (status : Nat) (body : String)
deriving DecidableEq, BEq

/-- `fetchAppcast` outcome: `none` is a rejected promise. -/
def fetchAppcast : HttpOutcome → Option String
  | .netError => none
  | .response status body => if status = 200 then some body else none

/-! ## User-visible side effects -/

inductive DialogKind
  | errorBox
  | infoBox
deriving DecidableEq, BEq

/-- A `dialog.showMessageBox` call: its `type`, its `title`, and whether its
text names the resolved installer path. -/
structure Dialog where
  kind : DialogKind
  title : String
  namesInstallerPath : Bool
deriving DecidableEq, BEq

inductive Event
  | dialog (d : Dialog)
  | notifyRenderer
  | unlinkDmg
  | spawnInstaller
  | relaunch
deriving DecidableEq, BEq

def isDialog : Event → Bool
  | .dialog _ => true
  | _ => false

def countDialogs (es : List Event) : Nat := (es.filter isDialog).length

/-- `runInstaller` (lines 175-196): best-effort unlink of the cached DMG,
detached spawn of `bash install.sh --force`, then relaunch + exit. -/
def runInstallerEvents : List Event :=
  [Event.unlinkDmg, Event.spawnInstaller, Event.relaunch]

/-- `promptInstallUpdate` (lines 151-173): shows one info dialog whose
`detail` names the installer path exactly when the installer file is
missing; the `.then` callback runs the installer only when the installer
exists and the user picked button 0. -/
def promptInstallUpdate (installerExists : Bool) (response : Nat) : List Event :=
  Event.dialog { kind := .infoBox, title := ("Update Available"),
                 namesInstallerPath := !installerExists } ::
    (if installerExists && response == 0 then runInstallerEvents else [])

/-! ## The update check (`checkForUpdates`, lines 79-128) -/

/-- Everything the environment decides during one `checkForUpdates` call. -/
structure CheckEnv where
  http : HttpOutcome
  pkgRead : PkgReadResult
  installerExists : Bool
  promptResponse : Nat
deriving DecidableEq, BEq

structure CheckResult where
  isUpdateAvailable : Bool
  state : UpdaterState
  events : List Event
deriving DecidableEq, BEq

/-- `checkForUpdates(opts)`: resolves the local build, fetches the appcast,
parses it, compares, and on `remote > local` sets `updateAvailable`,
notifies every renderer, and (non-silent) prompts for install.  Every
failure path returns `isUpdateAvailable: false` without touching
`updateAvailable`; the embedding is a total function, matching the JS
catch-all that never rethrows out of the checker. -/
def checkForUpdates (silent : Bool) (env : CheckEnv) (st : UpdaterState) :
    CheckResult :=
  let p := getCurrentBuildNumber st env.pkgRead
  let localBuild := p.1
  let st1 := p.2
  match fetchAppcast env.http with
  | none =>
      { isUpdateAvailable := false, state := st1,
        events := if silent then [] else
          [Event.dialog { kind := .errorBox, title := ("Update Check Failed"),
                          namesInstallerPath := false }] }
  | some xml =>
    match parseRemoteBuild xml with
    | none =>
        { isUpdateAvailable := false, state := st1,
          events := if silent then [] else
            [Event.dialog { kind := .errorBox, title := ("Update Check Failed"),
                            namesInstallerPath := false }] }
    | some remote =>
      let st2 := { st1 with latestRemoteBuild := some remote }
      if (remote : Int) > localBuild then
        let st3 := { st2 with updateAvailable := true }
        { isUpdateAvailable := true, state := st3,
          events := Event.notifyRenderer ::
            (if silent then [] else
              promptInstallUpdate env.installerExists env.promptResponse) }
      else
        { isUpdateAvailable := false, state := st2,
          events := if silent then [] else
            [Event.dialog { kind := .infoBox, title := ("No Updates Available"),
                            namesInstallerPath := false }] }

/-! ## Intercepted `install-app-update` IPC message (lines 218-242) -/

structure ViewMessage where
  msgType : String
deriving DecidableEq, BEq

/-- The wrapped `codex_desktop:message-from-view` handler.  For an
`install-app-update` message it runs the installer when the installer file
exists, otherwise shows an error dialog naming the path; anything else
passes through to the original handler (second component `true`). -/
def handleMessageFromView (msg : Option ViewMessage) (installerExists : Bool) :
    List Event × Bool :=
  match msg with
  | some m =>
    if m.msgType = ("install-app-update") then
      (if installerExists then runInstallerEvents
       else [Event.dialog { kind := .errorBox, title := ("Update Failed"),
                            namesInstallerPath := true }], false)
    else ([], true)
  | none => ([], true)

/-! ## Concrete inputs used to instantiate the theorems -/

/-- The feed document of spec section 8: a `<version>` tag, not a
`<sparkle:version>` tag. -/
def feed42 : String := ("<item><version>42</version></item>")

/-- The same feed with the tag the source pattern actually matches. -/
def sparkleFeed42 : String :=
  ("<item><sparkle:version>42</sparkle:version></item>")

/-- A document with one non-digit payload (ignored by the pattern) and two
matching tags. -/
def twoTagFeed : String :=
  ("<sparkle:version>a</sparkle:version><sparkle:version>7</sparkle:version><sparkle:version>9</sparkle:version>")

/-- Environment of a manual check that finds the feed, with the installer
present and the user answering button 0 (Install and Restart). -/
def mkConfirmEnv (xml : String) (read : PkgReadResult) : CheckEnv :=
  { http := .response 200 xml, pkgRead := read,
    installerExists := true, promptResponse := 0 }

/-- Environment of a check whose fetch fails at the transport layer. -/
def wEnvNetError : CheckEnv :=
  { http := .netError, pkgRead := .fail, installerExists := false,
    promptResponse := 1 }

end Updater

namespace Pipeline

/-! ## Idempotency stamp and the staged `main` (src/install.sh)

The stamp file is embedded as `Option String` (`none` = file absent; a
present file holds one line, read back by `$(cat ...)` which strips the
trailing newline `write_stamp` adds).  `sha256sum` of the DMG bytes is
abstracted to the environment field `dmgHash`.  Each expensive stage is
embedded as a success bit in the environment: `set -Eeuo pipefail` plus the
ERR trap make the first failing stage abort the whole run with exit code 1
(`error()` / the trap both `exit 1`), so the run is a fail-fast chain. -/

def ELECTRON_VERSION_DEFAULT : String := ("40.0.0")

/-- `compute_stamp` (lines 352-357): `"${dmg_hash}:${ELECTRON_VERSION}:${ARCH}"`. -/
def compute_stamp (dmgHash electronVersion arch : String) : String :=
  dmgHash ++ (":") ++ electronVersion ++ (":") ++ arch

/-- `check_stamp` (lines 359-367): false when the stamp file is absent,
otherwise compares the freshly computed fingerprint with the saved one. -/
def check_stamp (stampFile : Option String) (current : String) : Bool :=
  match stampFile with
  | none => false
  | some saved => current == saved

/-- One pipeline run as the environment decides it: whether each stage
succeeds, the detected runtime version (`none` = version file absent or
malformed, which falls back to the default), the DMG hash, and the host
architecture. -/
structure PipelineEnv where
  checkDepsOk : Bool
  resolveDmgOk : Bool
  extractDmgOk : Bool
  detectedVersion : Option String
  dmgHash : String
  arch : String
  patchAsarOk : Bool
  downloadElectronOk : Bool
  extractWebviewOk : Bool
  installAppOk : Bool
  createStartScriptOk : Bool
  installDesktopEntryOk : Bool
deriving DecidableEq, BEq

/-- `detect_electron_version` (lines 123-137): the detected version, or the
hardcoded default with a warning. -/
def electronVersionOf (env : PipelineEnv) : String :=
  env.detectedVersion.getD ELECTRON_VERSION_DEFAULT

inductive RunResult
  | failed (stage : String)
  | upToDate
  | installed
deriving DecidableEq, BEq

/-- Process exit code of a run: `error()` and the ERR trap exit 1; the
short-circuit `return 0` and the normal end of `main` exit 0. -/
def exitCodeOf : RunResult → Nat
  | .failed _ => 1
  | .upToDate => 0
  | .installed => 0

structure RunOutcome where
  result : RunResult
  stampFile : Option String
  wroteStamp : Bool
deriving DecidableEq, BEq

/-- `main` (lines 489-547): dependency check, DMG resolution, extraction,
version detection, then the fingerprint short-circuit (`--force` bypasses
it), then the expensive stages in order, and `write_stamp` as the last
stage.  `wroteStamp` records whether `write_stamp` ran. -/
def mainRun (force : Bool) (stampFile : Option String) (env : PipelineEnv) :
    RunOutcome :=
  if !env.checkDepsOk then
    { result := .failed ("check_deps"), stampFile := stampFile, wroteStamp := false }
  else if !env.resolveDmgOk then
    { result := .failed ("get_dmg"), stampFile := stampFile, wroteStamp := false }
  else if !env.extractDmgOk then
    { result := .failed ("extract_dmg"), stampFile := stampFile, wroteStamp := false }
  else
    let current := compute_stamp env.dmgHash (electronVersionOf env) env.arch
    if !force && check_stamp stampFile current then
      { result := .upToDate, stampFile := stampFile, wroteStamp := false }
    else if !env.patchAsarOk then
      { result := .failed ("patch_asar"), stampFile := stampFile, wroteStamp := false }
    else if !env.downloadElectronOk then
      { result := .failed ("download_electron"), stampFile := stampFile, wroteStamp := false }
    else if !env.extractWebviewOk then
      { result := .failed ("extract_webview"), stampFile := stampFile, wroteStamp := false }
    else if !env.installAppOk then
      { result := .failed ("install_app"), stampFile := stampFile, wroteStamp := false }
    else if !env.createStartScriptOk then
      { result := .failed ("create_start_script"), stampFile := stampFile, wroteStamp := false }
    else if !env.installDesktopEntryOk then
      { result := .failed ("install_desktop_entry"), stampFile := stampFile, wroteStamp := false }
    else
      { result := .installed, stampFile := some current, wroteStamp := true }

/-- An environment in which every stage succeeds. -/
def envAllOk : PipelineEnv :=
  { checkDepsOk := true, resolveDmgOk := true, extractDmgOk := true,
    detectedVersion := some ("40.0.0"), dmgHash := ("h"), arch := ("x86_64"),
    patchAsarOk := true, downloadElectronOk := true, extractWebviewOk := true,
    installAppOk := true, createStartScriptOk := true,
    installDesktopEntryOk := true }

/-- The stamp `envAllOk` computes. -/
def stampAllOk : String := ("h:40.0.0:x86_64")

end Pipeline

namespace Updater

/-! ## Helper lemmas -/

/-- Resolving the build number never touches the `updateAvailable` flag. -/
theorem getCurrentBuildNumber_preserves_flag (st : UpdaterState) (r : PkgReadResult) :
    ((getCurrentBuildNumber st r).2).updateAvailable = st.updateAvailable := by
  unfold getCurrentBuildNumber
  cases st.currentBuildNumber <;> rfl

/-- The install prompt shows exactly one dialog, whatever the installer
state and the user response. -/
theorem countDialogs_prompt (e : Bool) (r : Nat) :
    countDialogs (promptInstallUpdate e r) = 1 := by
  unfold promptInstallUpdate countDialogs runInstallerEvents
  split <;> rfl

/-- Renderer notifications are not dialogs. -/
theorem countDialogs_cons_notify (l : List Event) :
    countDialogs (Event.notifyRenderer :: l) = countDialogs l := rfl

/-! ## Claim theorems for the updater -/

/-- Claim C1: for every local build number L and every successfully fetched
and parsed remote build number R, `checkForUpdates` returns
`isUpdateAvailable == (R > L)`; when R equals or is below L it returns
not-available, so a downgrade is never offered. -/
theorem checkForUpdates_available_iff_remote_gt_local
    (silent : Bool) (env : CheckEnv) (st : UpdaterState) (xml : String) (remote : Nat)
    (hfetch : fetchAppcast env.http = some xml)
    (hparse : parseRemoteBuild xml = some remote) :
    (checkForUpdates silent env st).isUpdateAvailable
      = decide ((remote : Int) > (getCurrentBuildNumber st env.pkgRead).1) := by
  unfold checkForUpdates
  rw [hfetch]
  dsimp only
  rw [hparse]
  dsimp only
  by_cases hgt : (remote : Int) > (getCurrentBuildNumber st env.pkgRead).1
  · rw [if_pos hgt]
    simp [hgt]
  · rw [if_neg hgt]
    simp [hgt]

/-- Closed instance of claim C1 at remote build 42 against local build 40. -/
theorem checkForUpdates_available_iff_remote_gt_local_witness :
    fetchAppcast (mkConfirmEnv sparkleFeed42 (.parsed (some 40))).http = some sparkleFeed42
    ∧ parseRemoteBuild sparkleFeed42 = some 42
    ∧ (checkForUpdates false (mkConfirmEnv sparkleFeed42 (.parsed (some 40))) initialState).isUpdateAvailable
        = decide ((42 : Int) > (getCurrentBuildNumber initialState (.parsed (some 40))).1) :=
  ⟨rfl, by decide,
    checkForUpdates_available_iff_remote_gt_local false
      (mkConfirmEnv sparkleFeed42 (.parsed (some 40))) initialState
      sparkleFeed42 42 rfl (by decide)⟩

/-- Claim C3: when the fetch fails at the transport layer, the HTTP status
is not 200, or the document yields no version-token match, the check
returns `isUpdateAvailable: false` and leaves `updateAvailable` unchanged.
(The embedding is a total function: no exception escapes the checker.) -/
theorem checkForUpdates_failure_no_state_change
    (silent : Bool) (env : CheckEnv) (st : UpdaterState)
    (h : env.http = .netError
       ∨ (∃ s b, env.http = .response s b ∧ s ≠ 200)
       ∨ (∃ b, env.http = .response 200 b ∧ parseRemoteBuild b = none)) :
    (checkForUpdates silent env st).isUpdateAvailable = false
    ∧ (checkForUpdates silent env st).state.updateAvailable = st.updateAvailable := by
  have hflag := getCurrentBuildNumber_preserves_flag st env.pkgRead
  rcases h with h | ⟨s, b, hhttp, hs⟩ | ⟨b, hhttp, hb⟩
  · unfold checkForUpdates
    rw [h]
    dsimp only [fetchAppcast]
    exact ⟨rfl, hflag⟩
  · have hf : fetchAppcast env.http = none := by
      rw [hhttp]
      simp [fetchAppcast, hs]
    unfold checkForUpdates
    rw [hf]
    dsimp only
    exact ⟨rfl, hflag⟩
  · have hf : fetchAppcast env.http = some b := by
      rw [hhttp]
      simp [fetchAppcast]
    unfold checkForUpdates
    rw [hf]
    dsimp only
    rw [hb]
    dsimp only
    exact ⟨rfl, hflag⟩

/-- Closed instance of claim C3 at a transport failure. -/
theorem checkForUpdates_failure_no_state_change_witness :
    (checkForUpdates true wEnvNetError initialState).isUpdateAvailable = false
    ∧ (checkForUpdates true wEnvNetError initialState).state.updateAvailable
        = initialState.updateAvailable :=
  checkForUpdates_failure_no_state_change true wEnvNetError initialState (Or.inl rfl)

/-- Claim C4: `updateAvailable` is monotone — after any check it equals the
old flag OR-ed with the fresh result, so it is never reset from true to
false; build-number resolution never changes it at all. -/
theorem updateAvailable_monotone
    (silent : Bool) (env : CheckEnv) (st : UpdaterState) (read : PkgReadResult) :
    (checkForUpdates silent env st).state.updateAvailable
      = (st.updateAvailable || (checkForUpdates silent env st).isUpdateAvailable)
    ∧ ((getCurrentBuildNumber st read).2).updateAvailable = st.updateAvailable := by
  refine ⟨?_, getCurrentBuildNumber_preserves_flag st read⟩
  have hflag := getCurrentBuildNumber_preserves_flag st env.pkgRead
  unfold checkForUpdates
  rcases hf : fetchAppcast env.http with _ | xml <;> dsimp only
  · rw [hflag]
    simp
  · rcases hp : parseRemoteBuild xml with _ | remote <;> dsimp only
    · rw [hflag]
      simp
    · by_cases hgt : (remote : Int) > (getCurrentBuildNumber st env.pkgRead).1
      · rw [if_pos hgt]
        simp
      · rw [if_neg hgt]
        dsimp only
        rw [hflag]
        simp

/-- Claim C5: a silent check shows no dialog whatever the outcome; a
non-silent check shows exactly one dialog. -/
theorem checkForUpdates_dialog_count (silent : Bool) (env : CheckEnv) (st : UpdaterState) :
    countDialogs (checkForUpdates silent env st).events
      = if silent then 0 else 1 := by
  unfold checkForUpdates
  rcases hf : fetchAppcast env.http with _ | xml <;> dsimp only
  · cases silent <;> rfl
  · rcases hp : parseRemoteBuild xml with _ | remote <;> dsimp only
    · cases silent <;> rfl
    · by_cases hgt : (remote : Int) > (getCurrentBuildNumber st env.pkgRead).1
      · rw [if_pos hgt]
        cases silent
        · dsimp only
          rw [countDialogs_cons_notify]
          exact countDialogs_prompt env.installerExists env.promptResponse
        · rfl
      · rw [if_neg hgt]
        cases silent <;> rfl

/-- Claim C7 counterexample: the spec feed uses a `<version>` tag, which
the source pattern (`<sparkle:version>`) never matches, so a feed
containing only `<version>42</version>` against local build 40 parses to
nothing, reports no update, and never reaches the install flow. -/
theorem version_tag_feed_not_matched :
    parseRemoteBuild feed42 = none
    ∧ (checkForUpdates false (mkConfirmEnv feed42 (.parsed (some 40))) initialState).isUpdateAvailable
        = false
    ∧ ((checkForUpdates false (mkConfirmEnv feed42 (.parsed (some 40))) initialState).events.count
        Event.spawnInstaller) = 0 := by
  refine ⟨by decide, by decide, by decide⟩

/-- Claim C7 (amended): given a feed whose version-token match is
`<sparkle:version>42</sparkle:version>` and a local build resolving to 40,
a non-silent check with the installer present and the user confirming
(button 0) reports available, sends exactly one renderer notification, and
spawns the installer exactly once. -/
theorem sparkle_42_vs_40_installs_once
    (xml : String) (st : UpdaterState) (read : PkgReadResult)
    (hparse : parseRemoteBuild xml = some 42)
    (hlocal : (getCurrentBuildNumber st read).1 = 40) :
    (checkForUpdates false (mkConfirmEnv xml read) st).isUpdateAvailable = true
    ∧ ((checkForUpdates false (mkConfirmEnv xml read) st).events.count
        Event.notifyRenderer) = 1
    ∧ ((checkForUpdates false (mkConfirmEnv xml read) st).events.count
        Event.spawnInstaller) = 1 := by
  have hgt : ((42 : Nat) : Int) > (getCurrentBuildNumber st (mkConfirmEnv xml read).pkgRead).1 := by
    show ((42 : Nat) : Int) > (getCurrentBuildNumber st read).1
    rw [hlocal]
    decide
  unfold checkForUpdates
  rw [show fetchAppcast (mkConfirmEnv xml read).http = some xml from rfl]
  dsimp only
  rw [hparse]
  dsimp only
  rw [if_pos hgt]
  refine ⟨rfl, ?_, ?_⟩ <;> rfl

/-- Closed instance of (amended) claim C7 at the sparkle feed. -/
theorem sparkle_42_vs_40_installs_once_witness :
    parseRemoteBuild sparkleFeed42 = some 42
    ∧ ((checkForUpdates false (mkConfirmEnv sparkleFeed42 (.parsed (some 40))) initialState).isUpdateAvailable = true
       ∧ ((checkForUpdates false (mkConfirmEnv sparkleFeed42 (.parsed (some 40))) initialState).events.count
           Event.notifyRenderer) = 1
       ∧ ((checkForUpdates false (mkConfirmEnv sparkleFeed42 (.parsed (some 40))) initialState).events.count
           Event.spawnInstaller) = 1) :=
  ⟨by decide,
    sparkle_42_vs_40_installs_once sparkleFeed42 initialState (.parsed (some 40))
      (by decide) rfl⟩

/-- Claim C8: the build identifier is read at most once — the first call
caches the resolved value, every later call returns the cached value with
the state unchanged, and every read failure (thrown read or unparsable
manifest) resolves to 0. -/
theorem getCurrentBuildNumber_cached_once_zero_on_failure
    (st : UpdaterState) (read : PkgReadResult) :
    (st.currentBuildNumber = none →
       ((getCurrentBuildNumber st read).2).currentBuildNumber
           = some (getCurrentBuildNumber st read).1
       ∧ ∀ r2, getCurrentBuildNumber (getCurrentBuildNumber st read).2 r2
           = ((getCurrentBuildNumber st read).1, (getCurrentBuildNumber st read).2))
    ∧ (∀ n, st.currentBuildNumber = some n → getCurrentBuildNumber st read = (n, st))
    ∧ (st.currentBuildNumber = none → read = .fail ∨ read = .parsed none →
       (getCurrentBuildNumber st read).1 = 0) := by
  refine ⟨?_, ?_, ?_⟩
  · intro hnone
    unfold getCurrentBuildNumber
    rw [hnone]
    dsimp only
    exact ⟨rfl, fun r2 => rfl⟩
  · intro n hsome
    unfold getCurrentBuildNumber
    rw [hsome]
  · intro hnone hfail
    unfold getCurrentBuildNumber
    rw [hnone]
    rcases hfail with h | h <;> rw [h]

/-- Closed instance of claim C8: a failed first read caches 0 and a second
call (with a now-readable manifest) still returns the cached 0. -/
theorem getCurrentBuildNumber_cached_once_zero_on_failure_witness :
    (getCurrentBuildNumber initialState .fail).1 = 0
    ∧ getCurrentBuildNumber (getCurrentBuildNumber initialState .fail).2 (.parsed (some 7))
        = ((getCurrentBuildNumber initialState .fail).1,
           (getCurrentBuildNumber initialState .fail).2) :=
  ⟨(getCurrentBuildNumber_cached_once_zero_on_failure initialState .fail).2.2 rfl (Or.inl rfl),
   ((getCurrentBuildNumber_cached_once_zero_on_failure initialState .fail).1 rfl).2
     (.parsed (some 7))⟩

/-- Claim C9: an install request with no file at the resolved installer
path — whether from the intercepted `install-app-update` message or from
the confirmation prompt flow — produces only a dialog whose text names the
path; the installer is never spawned and the app is never relaunched. -/
theorem missing_installer_dialog_no_spawn_no_relaunch :
    handleMessageFromView (some { msgType := ("install-app-update") }) false
        = ([Event.dialog { kind := .errorBox, title := ("Update Failed"),
                           namesInstallerPath := true }], false)
    ∧ (∀ response, promptInstallUpdate false response
        = [Event.dialog { kind := .infoBox, title := ("Update Available"),
                          namesInstallerPath := true }])
    ∧ (∀ response, Event.spawnInstaller ∉ promptInstallUpdate false response
        ∧ Event.relaunch ∉ promptInstallUpdate false response)
    ∧ Event.spawnInstaller ∉ (handleMessageFromView (some { msgType := ("install-app-update") }) false).1
    ∧ Event.relaunch ∉ (handleMessageFromView (some { msgType := ("install-app-update") }) false).1 := by
  refine ⟨by decide, fun r => ?_, fun r => ?_, ?_, ?_⟩
  · simp [promptInstallUpdate]
  · constructor <;> simp [promptInstallUpdate]
  · simp [handleMessageFromView]
  · simp [handleMessageFromView]

/-- The leftmost pattern match is the head of the document-order match
list. -/
theorem findFirstMatch_eq_head (s : List Char) :
    findFirstMatch s = (allMatches s).head? := by
  induction s with
  | nil => rfl
  | cons c rest ih =>
    unfold findFirstMatch allMatches
    cases matchTagAt (c :: rest) <;> simp [ih]

/-- Claim C10: on a document with two or more matching version tags,
`parseRemoteBuild` returns the integer of the first tag in document order;
tags the pattern does not match contribute nothing to the match list. -/
theorem parseRemoteBuild_first_of_many
    (xml : String) (a b : Nat) (l : List Nat)
    (h : allMatches xml.toList = a :: b :: l) :
    parseRemoteBuild xml = some a := by
  unfold parseRemoteBuild
  rw [findFirstMatch_eq_head, h]
  rfl

/-- Closed instance of claim C10: a document with one non-digit payload
(ignored) and two matching tags parses to the first matching tag. -/
theorem parseRemoteBuild_first_of_many_witness :
    allMatches twoTagFeed.toList = [7, 9]
    ∧ parseRemoteBuild twoTagFeed = some 7 :=
  ⟨by decide, parseRemoteBuild_first_of_many twoTagFeed 7 9 [] (by decide)⟩

end Updater

namespace Pipeline

/-- `check_stamp` succeeds exactly when the stamp file holds the freshly
computed fingerprint. -/
theorem check_stamp_eq_true_iff (stampFile : Option String) (current : String) :
    check_stamp stampFile current = true ↔ stampFile = some current := by
  cases stampFile with
  | none => simp [check_stamp]
  | some saved =>
    simp only [check_stamp, beq_iff_eq, Option.some.injEq]
    exact eq_comm

/-- Claim C2: without `--force` (and with the pre-stamp stages succeeding)
the run short-circuits to "already up to date" exactly when the stamp file
exists and holds the fresh fingerprint `hash:version:arch`; an absent
stamp file always takes the full path, and `--force` never short-circuits. -/
theorem mainRun_short_circuit_iff_stamp
    (stampFile : Option String) (env : PipelineEnv)
    (h1 : env.checkDepsOk = true) (h2 : env.resolveDmgOk = true)
    (h3 : env.extractDmgOk = true) :
    ((mainRun false stampFile env).result = .upToDate
       ↔ stampFile = some (compute_stamp env.dmgHash (electronVersionOf env) env.arch))
    ∧ (mainRun false none env).result ≠ .upToDate
    ∧ (∀ f, (mainRun true f env).result ≠ .upToDate) := by
  have key : ∀ sf, (mainRun false sf env).result = .upToDate
      ↔ sf = some (compute_stamp env.dmgHash (electronVersionOf env) env.arch) := by
    intro sf
    unfold mainRun
    rw [h1, h2, h3]
    dsimp only
    split_ifs with hcs h4 h5 h6 h7 h8 h9 <;>
      simp only [← check_stamp_eq_true_iff sf
        (compute_stamp env.dmgHash (electronVersionOf env) env.arch)] <;>
      simp_all
  refine ⟨key stampFile, ?_, ?_⟩
  · intro hcontra
    rw [key none] at hcontra
    simp at hcontra
  · intro f
    unfold mainRun
    rw [h1, h2, h3]
    dsimp only
    split_ifs <;> simp_all

/-- Closed instance of claim C2: a matching stamp short-circuits, `--force`
rebuilds anyway, and an absent stamp rebuilds. -/
theorem mainRun_short_circuit_iff_stamp_witness :
    (mainRun false (some stampAllOk) envAllOk).result = RunResult.upToDate
    ∧ (mainRun false none envAllOk).result ≠ RunResult.upToDate
    ∧ (mainRun true (some stampAllOk) envAllOk).result ≠ RunResult.upToDate :=
  ⟨((mainRun_short_circuit_iff_stamp (some stampAllOk) envAllOk rfl rfl rfl).1).mpr (by decide),
   (mainRun_short_circuit_iff_stamp (some stampAllOk) envAllOk rfl rfl rfl).2.1,
   (mainRun_short_circuit_iff_stamp (some stampAllOk) envAllOk rfl rfl rfl).2.2 (some stampAllOk)⟩

/-- Every run lands in one of three shapes: a stage failure (stamp file
untouched, nothing written), the short-circuit (untouched), or full
success with every stage flag true and the fresh stamp written. -/
theorem mainRun_cases (force : Bool) (sf : Option String) (env : PipelineEnv) :
    (∃ s, mainRun force sf env
        = { result := .failed s, stampFile := sf, wroteStamp := false })
    ∨ mainRun force sf env
        = { result := .upToDate, stampFile := sf, wroteStamp := false }
    ∨ (mainRun force sf env
        = { result := .installed,
            stampFile := some (compute_stamp env.dmgHash (electronVersionOf env) env.arch),
            wroteStamp := true }
       ∧ env.checkDepsOk = true ∧ env.resolveDmgOk = true ∧ env.extractDmgOk = true
       ∧ env.patchAsarOk = true ∧ env.downloadElectronOk = true
       ∧ env.extractWebviewOk = true ∧ env.installAppOk = true
       ∧ env.createStartScriptOk = true ∧ env.installDesktopEntryOk = true) := by
  cases hA : env.checkDepsOk with
  | false => exact Or.inl ⟨("check_deps"), by simp [mainRun, hA]⟩
  | true =>
  cases hB : env.resolveDmgOk with
  | false => exact Or.inl ⟨("get_dmg"), by simp [mainRun, hA, hB]⟩
  | true =>
  cases hC : env.extractDmgOk with
  | false => exact Or.inl ⟨("extract_dmg"), by simp [mainRun, hA, hB, hC]⟩
  | true =>
  cases hS : (!force && check_stamp sf (compute_stamp env.dmgHash (electronVersionOf env) env.arch)) with
  | true => exact Or.inr (Or.inl (by simp [mainRun, hA, hB, hC, hS]))
  | false =>
  cases hD : env.patchAsarOk with
  | false => exact Or.inl ⟨("patch_asar"), by simp [mainRun, hA, hB, hC, hS, hD]⟩
  | true =>
  cases hE : env.downloadElectronOk with
  | false => exact Or.inl ⟨("download_electron"), by simp [mainRun, hA, hB, hC, hS, hD, hE]⟩
  | true =>
  cases hF : env.extractWebviewOk with
  | false => exact Or.inl ⟨("extract_webview"), by simp [mainRun, hA, hB, hC, hS, hD, hE, hF]⟩
  | true =>
  cases hG : env.installAppOk with
  | false => exact Or.inl ⟨("install_app"), by simp [mainRun, hA, hB, hC, hS, hD, hE, hF, hG]⟩
  | true =>
  cases hH : env.createStartScriptOk with
  | false => exact Or.inl ⟨("create_start_script"), by simp [mainRun, hA, hB, hC, hS, hD, hE, hF, hG, hH]⟩
  | true =>
  cases hI : env.installDesktopEntryOk with
  | false => exact Or.inl ⟨("install_desktop_entry"), by simp [mainRun, hA, hB, hC, hS, hD, hE, hF, hG, hH, hI]⟩
  | true =>
  exact Or.inr (Or.inr ⟨by simp [mainRun, hA, hB, hC, hS, hD, hE, hF, hG, hH, hI],
    rfl, rfl, rfl, rfl, rfl, rfl, rfl, rfl, rfl⟩)

/-- Claim C6: the stamp is written exactly when the run reaches the final
stage, which requires every prior stage to have succeeded; a run that
fails at any stage exits non-zero with the stamp file untouched. -/
theorem stamp_written_only_after_full_success
    (force : Bool) (stampFile : Option String) (env : PipelineEnv) :
    ((mainRun force stampFile env).wroteStamp = true
       ↔ (mainRun force stampFile env).result = .installed)
    ∧ ((mainRun force stampFile env).result = .installed →
         env.checkDepsOk = true ∧ env.resolveDmgOk = true ∧ env.extractDmgOk = true
         ∧ env.patchAsarOk = true ∧ env.downloadElectronOk = true
         ∧ env.extractWebviewOk = true ∧ env.installAppOk = true
         ∧ env.createStartScriptOk = true ∧ env.installDesktopEntryOk = true)
    ∧ ((mainRun force stampFile env).wroteStamp = false →
         (mainRun force stampFile env).stampFile = stampFile)
    ∧ (∀ s, (mainRun force stampFile env).result = .failed s →
         exitCodeOf (mainRun force stampFile env).result ≠ 0
         ∧ (mainRun force stampFile env).wroteStamp = false) := by
  rcases mainRun_cases force stampFile env with ⟨s0, hcase⟩ | hcase | ⟨hcase, hflags⟩ <;>
    rw [hcase] <;> simp_all [exitCodeOf]

/-- Closed instance of claim C6: with every stage succeeding the stamp is
written, and with a failing native-rebuild stage nothing is written. -/
theorem stamp_written_only_after_full_success_witness :
    (mainRun false none envAllOk).wroteStamp = true
    ∧ ((mainRun false none { envAllOk with patchAsarOk := false }).result
          = RunResult.failed ("patch_asar") →
        exitCodeOf (mainRun false none { envAllOk with patchAsarOk := false }).result ≠ 0
        ∧ (mainRun false none { envAllOk with patchAsarOk := false }).wroteStamp = false) :=
  ⟨((stamp_written_only_after_full_success false none envAllOk).1).mpr (by decide),
   (stamp_written_only_after_full_success false none
      { envAllOk with patchAsarOk := false }).2.2.2 ("patch_asar")⟩

end Pipeline
